import Mathlib

/-!
Shallow embedding of the job-orchestration core of the mvs-designer
repository (Flask + SQLAlchemy + Meshroom), together with proofs of the
spec's testable properties.

Source files embedded:
  app/models.py           (ReconstructionJob.update_status, JobImage)
  app/utils.py            (allowed_file, validate_images)
  app/services/job_service.py   (create_job, upload_images, delete_job)
  app/services/meshroom_service.py
  app/blueprints/api.py   (upload_images, reconstruct_3d, check_status routes)
  app/middleware/validation.py  (validate_file_upload)

Conventions: Python floats used for `progress` only ever carry small exact
integral values in this code base, so progress is modelled as `Rat`;
timestamps (`datetime.now`) are modelled as a `now : Nat` parameter;
database sessions are modelled as in-memory lists with commit points noted
in comments; the filesystem is modelled as association lists of
directories with contents and flat lists of file paths.  The SQLAlchemy
field `s3_key_prefix` is spelled `s3_key_pfx` here.
-/

namespace MvsDesigner

/-- One persisted `reconstruction_jobs` row (app/models.py, ReconstructionJob).
`id` is the primary key, `job_id` the external UUID string. -/
structure JobRecord where
  id : Nat
  user_id : Nat
  job_id : String
  title : Option String
  description : Option String
  status : String
  quality : String
  preset : String
  progress : Rat
  error_message : Option String
  input_folder : Option String
  output_folder : Option String
  model_file_path : Option String
  s3_key_pfx : Option String
  started_at : Option Nat
  completed_at : Option Nat
  deriving Repr, DecidableEq

/-- Column defaults from models.py (status "pending", quality "medium",
preset "default", progress 0.0, everything else NULL). -/
def JobRecord.mk0 (id user_id : Nat) (job_id : String) (title description : Option String) : JobRecord :=
  { id := id, user_id := user_id, job_id := job_id, title := title,
    description := description, status := "pending", quality := "medium",
    preset := "default", progress := 0, error_message := none,
    input_folder := none, output_folder := none, model_file_path := none,
    s3_key_pfx := none, started_at := none, completed_at := none }

/-- ReconstructionJob.update_status (app/models.py lines 99-110):
sets status unconditionally; progress and error_message only when the
corresponding argument is not None; stamps started_at on first entry to
"running" and completed_at on "completed"/"failed". -/
def JobRecord.update_status (j : JobRecord) (now : Nat) (status : String)
    (progress : Option Rat) (error_message : Option String) : JobRecord :=
  let j1 : JobRecord := { j with status := status }
  let j2 : JobRecord := match progress with
    | some p => { j1 with progress := p }
    | none => j1
  let j3 : JobRecord := match error_message with
    | some e => { j2 with error_message := some e }
    | none => j2
  if status = "running" then
    (if j3.started_at = none then { j3 with started_at := some now } else j3)
  else if status = "completed" ∨ status = "failed" then
    { j3 with completed_at := some now }
  else j3

/-- One persisted `job_images` row (app/models.py, JobImage).
`job_id` references JobRecord.id (the primary key, not the external id). -/
structure JobImage where
  job_id : Nat
  filename : String
  original_filename : String
  file_size : Nat
  file_path : Option String
  s3_key : Option String
  image_width : Option Nat
  image_height : Option Nat
  deriving Repr, DecidableEq

/-- A candidate upload: its declared filename, its byte size, and the
result of opening it with PIL (`none` when the bytes are not a decodable
image, otherwise the (width, height) pair).  The same record doubles as
the on-disk saved copy, since `file.save` preserves content. -/
structure FileData where
  filename : String
  size : Nat
  decodes : Option (Nat × Nat)
  deriving Repr, DecidableEq

/-- app/utils.py ALLOWED_EXTENSIONS. -/
def ALLOWED_EXTENSIONS : List String := ["png", "jpg", "jpeg", "tiff", "bmp"]

/-- str.lower(), computed on the character list. -/
def strToLower (s : String) : String :=
  ⟨s.data.map Char.toLower⟩

/-- The characters after the last occurrence of `sep`; the whole list when
`sep` does not occur (`rsplit(sep, 1)` tail). -/
def afterLast (sep : Char) (l : List Char) : List Char :=
  (l.reverse.takeWhile (fun c => !(c = sep))).reverse

/-- str.endswith(suf). -/
def strEndsWith (s suf : String) : Bool :=
  suf.data.isSuffixOf s.data

/-- str.startswith(pre). -/
def strStartsWith (s pre : String) : Bool :=
  pre.data.isPrefixOf s.data

/-- app/utils.py allowed_file: empty name or no dot rejects; otherwise the
substring after the last dot, lowercased, must be an allowed extension
(`filename.rsplit('.', 1)[1].lower()`). -/
def allowed_file (filename : String) : Bool :=
  if filename.isEmpty then false
  else if !(filename.data.contains '.') then false
  else ALLOWED_EXTENSIONS.contains (strToLower ⟨afterLast '.' filename.data⟩)

/-- The per-file acceptance test inside app/utils.py validate_images:
the file must open as an image (PIL Image.open + img.verify succeed,
folded into `decodes ≠ none`), have width ≥ 800 and height ≥ 600, and be
at most 50 MB (`file_size > 50*1024*1024` rejects). -/
def validFile (f : FileData) : Bool :=
  match f.decodes with
  | none => false
  | some (w, h) => !(w < 800 ∨ h < 600) && !(f.size > 50 * 1024 * 1024)

/-- Result dictionary of validate_images, keeping the fields the callers
read: `valid`, `message`, and the surviving file names. -/
structure ValidationResult where
  valid : Bool
  message : String
  valid_images : List String
  deriving Repr, DecidableEq

/-- app/utils.py validate_images over a job folder (modelled as the list
of files it contains, or `none` when the folder does not exist): filters
to allowed extensions, requires at least 3 such files, drops per-file
failures (resolution, size, corruption) without aborting, and fails only
when fewer than 3 valid files survive. -/
def validate_images (folder : Option (List FileData)) : ValidationResult :=
  match folder with
  | none => { valid := false, message := "文件夹不存在", valid_images := [] }
  | some files =>
    let image_files := files.filter (fun f => allowed_file f.filename)
    if image_files.length < 3 then
      { valid := false, message := "图片数量不足，至少需要3张", valid_images := [] }
    else
      let valid_images := image_files.filter validFile
      if valid_images.length < 3 then
        { valid := false, message := "有效图片数量不足，至少需要3张高质量图片",
          valid_images := valid_images.map (·.filename) }
      else
        { valid := true, message := "验证通过", valid_images := valid_images.map (·.filename) }

/-- The durable + local state touched by JobService: the committed
`reconstruction_jobs` rows, the committed `job_images` rows, and the local
filesystem's job directories with their contents. -/
structure UploadState where
  jobs : List JobRecord
  images : List JobImage
  dirs : List (String × List FileData)
  deriving Repr, DecidableEq

def UploadState.empty : UploadState := { jobs := [], images := [], dirs := [] }

/-- `ReconstructionJob.query.filter_by(job_id=..., user_id=...).first()`. -/
def findJob (st : UploadState) (job_id : String) (user_id : Nat) : Option JobRecord :=
  st.jobs.find? (fun j => j.job_id = job_id && j.user_id = user_id)

/-- Replace the row with the given external id (SQLAlchemy mutation of a
loaded object followed by commit). -/
def UploadState.updateJob (st : UploadState) (job_id : String) (f : JobRecord → JobRecord) : UploadState :=
  { st with jobs := st.jobs.map (fun j => if j.job_id = job_id then f j else j) }

/-- Does the directory exist? -/
def UploadState.hasDir (st : UploadState) (d : String) : Bool :=
  st.dirs.any (fun p => p.1 = d)

/-- `shutil.rmtree(path, ignore_errors=True)`: drop the directory if
present, no error when absent. -/
def UploadState.rmtree (st : UploadState) (d : String) : UploadState :=
  { st with dirs := st.dirs.filter (fun p => p.1 ≠ d) }

/-- JobService.create_job (app/services/job_service.py lines 26-73):
inserts a pending job row, creates the job-scoped upload directory
`UPLOAD_FOLDER/job_id`, records it as input_folder, and commits.  The
exception branch (rollback) is not reachable in the model, so the result
is always success; the returned string is the created folder. -/
def create_job (st : UploadState) (upload_folder : String) (user_id next_id : Nat)
    (job_id : String) (title description : Option String) : UploadState × String :=
  let job_folder := upload_folder ++ "/" ++ job_id
  let job := { JobRecord.mk0 next_id user_id job_id title description with
               input_folder := some job_folder }
  ({ st with jobs := st.jobs ++ [job], dirs := st.dirs ++ [(job_folder, [])] }, job_folder)

/-- The JobImage row built for one saved file in upload_images: dimensions
from PIL when the file decodes, local path under the job folder, s3_key
NULL in the S3-less configuration. -/
def mkJobImage (job_db_id : Nat) (folder : String) (f : FileData) : JobImage :=
  { job_id := job_db_id, filename := f.filename, original_filename := f.filename,
    file_size := f.size, file_path := some (folder ++ "/" ++ f.filename),
    s3_key := none,
    image_width := f.decodes.map Prod.fst,
    image_height := f.decodes.map Prod.snd }

/-- Outcome dictionary of JobService.upload_images, keeping `success`,
`error` and the uploaded file names. -/
structure UploadResult where
  success : Bool
  error : Option String
  uploaded_files : List String
  deriving Repr, DecidableEq

/-- JobService.upload_images (app/services/job_service.py lines 75-214).
Modelled for the S3-less configuration (`current_app.s3_service = None`),
so the best-effort image mirroring is skipped and every `s3_key` stays
NULL; nothing else depends on it.  Steps, in source order: find the job
(owner-filtered); reject unless status is pending/failed; reject batches
of fewer than 3 files (note: without removing the job folder); save every
allowed-extension file into the job folder and build its image row;
if fewer than 3 were saved, rmtree the folder and fail; run
validate_images over the folder and on failure rmtree and fail; otherwise
commit all image rows.  The job row committed by create_job is never
deleted on any failure path. -/
def upload_images (st : UploadState) (job_id : String) (user_id : Nat)
    (files : List FileData) (title description : Option String) : UploadState × UploadResult :=
  match findJob st job_id user_id with
  | none => (st, { success := false, error := some "Job not found or access denied", uploaded_files := [] })
  | some job =>
    if !(job.status = "pending" || job.status = "failed") then
      (st, { success := false, error := some ("Cannot upload images for job with status: " ++ job.status), uploaded_files := [] })
    else
      let st := st.updateJob job_id (fun j =>
        { j with title := match title with | some t => some t | none => j.title,
                 description := match description with | some d => some d | none => j.description })
      if files.length < 3 then
        (st, { success := false, error := some "At least 3 images are required", uploaded_files := [] })
      else
        let folder := job.input_folder.getD ""
        let saved := files.filter (fun f => allowed_file f.filename)
        let job_images := saved.map (mkJobImage job.id folder)
        let newDirs := st.dirs.map (fun (p : String × List FileData) =>
          if p.1 = folder then (p.1, saved) else p)
        let st := { st with dirs := newDirs }
        if saved.length < 3 then
          (st.rmtree folder,
           { success := false, error := some "Less than 3 valid images uploaded", uploaded_files := [] })
        else
          let vr := validate_images (if st.hasDir folder then some saved else none)
          if !vr.valid then
            (st.rmtree folder,
             { success := false, error := some ("Image validation failed: " ++ vr.message), uploaded_files := [] })
          else
            ({ st with images := st.images ++ job_images },
             { success := true, error := none, uploaded_files := saved.map (·.filename) })

/-- Extension test of middleware validate_file_upload:
`file.filename.lower().endswith(tuple('.'+ext ...))` with the extension
set passed at the /api/upload route (png, jpg, jpeg, tiff, bmp). -/
def mwExtensionOk (filename : String) : Bool :=
  ALLOWED_EXTENSIONS.any (fun ext => strEndsWith (strToLower filename) ("." ++ ext))

/-- app/middleware/validation.py validate_file_upload, instantiated with
the /api/upload arguments (allowed extensions as above, max_size 50 MB,
min_files 3): reject when fewer than 3 files arrive; reject outright when
any non-empty-named file has a bad extension or exceeds 50 MB; finally
require at least 3 non-empty-named files. -/
def validate_file_upload (files : List FileData) : Bool :=
  if files.length < 3 then false
  else if files.any (fun f => !f.filename.isEmpty &&
      (!(mwExtensionOk f.filename) || f.size > 50 * 1024 * 1024)) then false
  else (files.filter (fun f => !f.filename.isEmpty)).length ≥ 3

/-- The /api/upload route (app/blueprints/api.py lines 20-69) after
authentication: middleware validation, then create_job (commits the job
row), then upload_images; the route returns 400 on upload failure without
undoing create_job.  Result boolean is request success. -/
def upload_endpoint (st : UploadState) (upload_folder : String) (user_id next_id : Nat)
    (job_id : String) (files : List FileData) (title description : Option String) :
    UploadState × Bool :=
  if !(validate_file_upload files) then (st, false)
  else
    let (st1, _) := create_job st upload_folder user_id next_id job_id title description
    let (st2, r) := upload_images st1 job_id user_id files title description
    (st2, r.success)

/-- os.path.basename on a slash-separated path: the characters after the
last slash. -/
def basename (p : String) : String :=
  ⟨afterLast '/' p.data⟩

/-- os.path.dirname on a slash-separated path: everything before the last
slash ("" when there is none). -/
def dirname (p : String) : String :=
  if p.data.contains '/' then
    ⟨p.data.take (p.data.length - (basename p).data.length - 1)⟩
  else ""

/-- Is `p` a path directly inside directory `dir` (no further slash)? -/
def inDir (dir p : String) : Bool :=
  strStartsWith p (dir ++ "/") && !((p.data.drop (dir.data.length + 1)).contains '/')

/-- `glob.glob(os.path.join(dir, '*' ++ ext))` over a filesystem modelled
as a flat list of file paths: the files directly in `dir` whose name ends
with `ext`. -/
def glob1 (dir ext : String) (fs : List String) : List String :=
  fs.filter (fun p => inDir dir p && strEndsWith p ext)

/-- One entry of MeshroomService.jobs_status (the in-memory per-job status
dictionary seeded by start_reconstruction). -/
structure MemEntry where
  status : String
  progress : Rat
  message : String
  input_folder : String
  output_folder : String
  temp_folder : String
  quality : String
  preset : String
  output_file : Option String
  deriving Repr, DecidableEq

/-- The mutable state of one MeshroomService instance: its jobs_status
dictionary (insertion-ordered association list). -/
structure MeshroomService where
  jobs_status : List (String × MemEntry)
  deriving Repr, DecidableEq

/-- MeshroomService.__init__ (meshroom_service.py lines 23-26): the
jobs_status dictionary starts empty. -/
def MeshroomService.init : MeshroomService := { jobs_status := [] }

/-- Dictionary lookup `job_id in self.jobs_status` / subscript read. -/
def MeshroomService.lookup (svc : MeshroomService) (job_id : String) : Option MemEntry :=
  (svc.jobs_status.find? (fun p => p.1 = job_id)).map (·.2)

/-- Dictionary write `self.jobs_status[job_id] = entry`. -/
def MeshroomService.setEntry (svc : MeshroomService) (job_id : String) (e : MemEntry) : MeshroomService :=
  if svc.jobs_status.any (fun p => p.1 = job_id) then
    { jobs_status := svc.jobs_status.map (fun p => if p.1 = job_id then (p.1, e) else p) }
  else
    { jobs_status := svc.jobs_status ++ [(job_id, e)] }

/-- MeshroomService.start_reconstruction (lines 49-94), in-memory and
filesystem part: computes `MODELS_FOLDER/job_id` and `TEMP_FOLDER/job_id`
and seeds jobs_status[job_id] with status "initializing", progress 0.
(The database write it performs is part of the reconstruct_3d model
below; the background thread itself is run_reconstruction_mem.) -/
def start_reconstruction_mem (svc : MeshroomService)
    (job_id input_folder models_folder temp_root quality preset : String) : MeshroomService :=
  let output_folder := models_folder ++ "/" ++ job_id
  let temp_folder := temp_root ++ "/" ++ job_id
  svc.setEntry job_id
    { status := "initializing", progress := 0, message := "初始化重建任务...",
      input_folder := input_folder, output_folder := output_folder,
      temp_folder := temp_folder, quality := quality, preset := preset,
      output_file := none }

/-- Outcome of the external meshroom_batch process as observed by
_run_reconstruction: a (returncode, stdout, stderr) exit, or a Python
exception (launch failure or anything thrown inside the try block). -/
inductive ProcResult where
  | exited (returncode : Int) (stdout stderr : String)
  | raised (msg : String)
  deriving Repr, DecidableEq

/-- The quality_settings dictionary of _build_meshroom_command: the
quality→preset-flag mapping low→draft, medium→default, high→detailed (no
preset flag for an unknown quality). -/
def quality_settings (quality : String) : List String :=
  if quality = "low" then ["--preset", "draft"]
  else if quality = "medium" then ["--preset", "default"]
  else if quality = "high" then ["--preset", "detailed"]
  else []

/-- MeshroomService._build_meshroom_command (lines 186-211): executable,
`--input`/`--output`/`--cache` directory arguments, the quality preset
flags, then `--verbose info` and `--save TEMP/pipeline.mg`. -/
def build_meshroom_command (meshroom_path input_folder output_folder temp_folder quality : String) : List String :=
  [meshroom_path, "--input", input_folder, "--output", output_folder, "--cache", temp_folder] ++
    quality_settings quality ++
    ["--verbose", "info", "--save", temp_folder ++ "/pipeline.mg"]

/-- The progress estimate one iteration of MeshroomService._monitor_progress
writes for elapsed wall-clock seconds: `min(90, int(elapsed / 60 * 10))`. -/
def monitorProgress (elapsed : Rat) : Int :=
  min 90 ⌊elapsed / 60 * 10⌋

/-- The successive values taken by jobs_status[job_id]['progress'] during
one run whose monitor loop samples at the given elapsed times: 0 seeded by
start_reconstruction, 10 written just before launching the process
(line 111), one monitor estimate per sample, and 100 on a successful
exit (failed runs leave the last sampled value in place). -/
def memProgressWrites (sampleTimes : List Rat) (res : ProcResult) : List Rat :=
  [0, 10] ++ sampleTimes.map (fun t => ((monitorProgress t : Int) : Rat)) ++
    (match res with
     | .exited code _ _ => if code = 0 then ([100] : List Rat) else ([] : List Rat)
     | .raised _ => ([] : List Rat))

/-- MeshroomService._process_output (lines 229-257): search
TEMP/Texturing/*.obj, then TEMP/Meshing/*.obj, then TEMP/*.obj; if a model
file is found, copy it to `OUTPUT/job_id.obj` and copy the *.jpg, *.png,
*.mtl companions from its directory to OUTPUT.  The Python function has no
return statement, so the caller always receives None for 'output_file':
the second component is that returned value. -/
def process_output (fs : List String) (job_id temp_folder output_folder : String) :
    List String × Option String :=
  match (([temp_folder ++ "/Texturing", temp_folder ++ "/Meshing", temp_folder]).filterMap
      (fun d => (glob1 d ".obj" fs).head?)).head? with
  | none => (fs, none)
  | some model_file =>
    let output_model := output_folder ++ "/" ++ job_id ++ ".obj"
    let model_dir := dirname model_file
    let texture_files := (["jpg", "png", "mtl"].map (fun e => glob1 model_dir ("." ++ e) fs)).flatten
    (fs ++ [output_model] ++ texture_files.map (fun t => output_folder ++ "/" ++ basename t), none)

/-- MeshroomService._run_reconstruction (lines 96-168), final effect on
the in-memory entry and the filesystem once the process result is known
(the interim running/5/10 updates and the monitor samples are modelled by
runUpdates and memProgressWrites; a raised exception is placed at the
process launch, after those interim updates).  Exit 0 runs _process_output
(whose returned output_file is always None) and _generate_model_info
(which writes OUTPUT/model_info.json); any other exit or an exception
marks the entry failed with the captured diagnostic message. -/
def run_reconstruction_mem (svc : MeshroomService) (fs : List String)
    (job_id : String) (res : ProcResult) : MeshroomService × List String :=
  match svc.lookup job_id with
  | none => (svc, fs)
  | some e =>
    match res with
    | .exited code _ stderr =>
      if code = 0 then
        let (fs1, ofile) := process_output fs job_id e.temp_folder e.output_folder
        (svc.setEntry job_id
          { e with status := "completed", progress := 100, message := "3D重建完成",
                   output_file := ofile },
         fs1 ++ [e.output_folder ++ "/model_info.json"])
      else
        (svc.setEntry job_id { e with status := "failed", message := "重建失败: " ++ stderr }, fs)
    | .raised m =>
      (svc.setEntry job_id { e with status := "failed", message := "重建过程出错: " ++ m }, fs)

/-- The dictionary returned by MeshroomService.get_reconstruction_status:
either {'error': ...} for an unknown job id, or a copy of the in-memory
entry, extended for completed jobs with model_ready (and download fields,
not modelled as no claim reads them). -/
inductive MeshObs where
  | err (msg : String)
  | st (entry : MemEntry) (model_ready : Option Bool)
  deriving Repr, DecidableEq

/-- `meshroom_status.get('status')`. -/
def MeshObs.status? : MeshObs → Option String
  | .err _ => none
  | .st e _ => some e.status

/-- `meshroom_status.get('progress')`. -/
def MeshObs.progress? : MeshObs → Option Rat
  | .err _ => none
  | .st e _ => some e.progress

/-- `meshroom_status.get('error')`: only the unknown-job dictionary has an
'error' key; jobs_status entries never do. -/
def MeshObs.error? : MeshObs → Option String
  | .err m => some m
  | .st _ _ => none

/-- `meshroom_status.get('output_file')`. -/
def MeshObs.output_file? : MeshObs → Option String
  | .err _ => none
  | .st e _ => e.output_file

/-- `meshroom_status.get('model_ready')`. -/
def MeshObs.model_ready? : MeshObs → Option Bool
  | .err _ => none
  | .st _ mr => mr

/-- MeshroomService.get_reconstruction_status (lines 285-302): unknown job
id yields {'error': '任务不存在'}; otherwise a copy of the entry, with
model_ready = os.path.exists(OUTPUT/job_id.obj) added when the status is
"completed". -/
def get_reconstruction_status (svc : MeshroomService) (fs : List String) (job_id : String) : MeshObs :=
  match svc.lookup job_id with
  | none => .err "任务不存在"
  | some e =>
    if e.status = "completed" then
      .st e (some (fs.contains (e.output_folder ++ "/" ++ job_id ++ ".obj")))
    else
      .st e none

/-- One ReconstructionJob.update_status call: its status, progress and
error_message arguments. -/
structure UpdateEvent where
  status : String
  progress : Option Rat
  error_message : Option String
  deriving Repr, DecidableEq

/-- The update_status calls a run issues against the persisted record from
_run_reconstruction's thread, in program order: running/5 and running/10
before the launch, then the terminal update for the process result
(exceptions are placed at the launch point). -/
def threadUpdates (res : ProcResult) : List UpdateEvent :=
  [{ status := "running", progress := some 5, error_message := none },
   { status := "running", progress := some 10, error_message := none }] ++
  (match res with
   | .exited code _ stderr =>
     if code = 0 then [{ status := "completed", progress := some 100, error_message := none }]
     else [{ status := "failed", progress := none, error_message := some ("重建失败: " ++ stderr) }]
   | .raised m => [{ status := "failed", progress := none, error_message := some ("重建过程出错: " ++ m) }])

/-- All update_status calls of one run of a job, sequentialized in issue
order: the reconstruct_3d request path writes running/0 (api.py line 111),
start_reconstruction writes initializing/0 (meshroom_service.py line 63),
the request path writes running/5 on successful start (api.py line 125),
then the background thread's updates.  (The thread actually races the
request path's running/5; this list is the request-path-first
sequentialization.) -/
def runUpdates (res : ProcResult) : List UpdateEvent :=
  [{ status := "running", progress := some 0, error_message := none },
   { status := "initializing", progress := some 0, error_message := none },
   { status := "running", progress := some 5, error_message := none }] ++ threadUpdates res

/-- Fold a list of update_status calls over a record. -/
def applyUpdates (j : JobRecord) (now : Nat) (evs : List UpdateEvent) : JobRecord :=
  evs.foldl (fun a e => a.update_status now e.status e.progress e.error_message) j

/-- The successive progress values of the record along a list of
update_status calls (including the starting value). -/
def progressTrace (j : JobRecord) (now : Nat) (evs : List UpdateEvent) : List Rat :=
  (evs.scanl (fun a e => a.update_status now e.status e.progress e.error_message) j).map (·.progress)

/-- The five job statuses of the state machine. -/
def validStatuses : List String := ["pending", "initializing", "running", "completed", "failed"]

/-- config QUALITY_PRESETS keys (app/config.py). -/
def qualityKeys : List String := ["low", "medium", "high"]

/-- Outcome of the /api/reconstruct route. -/
inductive ReconOutcome where
  | notFound
  | badStatus (s : String)
  | badQuality
  | started
  | startFailed (e : String)
  deriving Repr, DecidableEq

/-- The /api/reconstruct route (app/blueprints/api.py lines 72-149) after
authentication, acting on the persisted store and a fresh MeshroomService:
look the job up (owner-filtered, 404 if absent); reject with 400 and no
write when the status is not pending/failed; reject unknown quality; then
set quality/preset, update_status running/0, run start_reconstruction
(which writes initializing/0 and the output folder, seeds the in-memory
entry, and creates the output and temp directories), and on successful
thread start write running/5; on a start failure write failed with the
reported error.  `startOk` abstracts whether start_reconstruction returned
success (its try block). -/
def reconstruct_3d (st : UploadState) (svc : MeshroomService)
    (job_id : String) (user_id : Nat) (quality preset : String)
    (models_folder temp_root : String) (startOk : Bool) (startErr : String) (now : Nat) :
    UploadState × MeshroomService × ReconOutcome :=
  match findJob st job_id user_id with
  | none => (st, svc, .notFound)
  | some job =>
    if !(job.status = "pending" || job.status = "failed") then
      (st, svc, .badStatus job.status)
    else if !(qualityKeys.contains quality) then
      (st, svc, .badQuality)
    else
      let output_folder := models_folder ++ "/" ++ job_id
      let temp_folder := temp_root ++ "/" ++ job_id
      let st1 := st.updateJob job_id (fun j =>
        ({ j with quality := quality, preset := preset }).update_status now "running" (some 0) none)
      let st2 := { st1.updateJob job_id (fun j =>
        { j.update_status now "initializing" (some 0) none with output_folder := some output_folder })
        with dirs := st1.dirs ++ [(output_folder, []), (temp_folder, [])] }
      let svc1 := start_reconstruction_mem svc job_id (job.input_folder.getD "") models_folder temp_root quality preset
      if startOk then
        (st2.updateJob job_id (fun j => j.update_status now "running" (some 5) none), svc1, .started)
      else
        (st2.updateJob job_id (fun j => j.update_status now "failed" none (some startErr)), svc1,
         .startFailed startErr)

/-- The status-synchronization block of the /api/status/<job_id> route
(app/blueprints/api.py lines 177-208), parameterized by the observed
meshroom dictionary: when the observed 'status' differs from the persisted
one, update_status with the observed status/progress/'error' (each falling
back to the persisted value / None); if the observed status is 'completed'
and an 'output_file' is present, record model_file_path and output_folder
and, when an object store is configured and the file exists, call
upload_local_file (counted by the second component) and on its success
record s3_key_prefix = "jobs/" ++ job_id.  No branch consults the already
recorded s3_key_prefix.  When the observed status equals the persisted
one, nothing is written.  -/
def check_status_sync (job : JobRecord) (obs : MeshObs)
    (s3avail fileExists uploadOk : Bool) (now : Nat) : JobRecord × Nat :=
  if obs.status? ≠ some job.status then
    let j1 := job.update_status now ((obs.status?).getD job.status)
      (some ((obs.progress?).getD job.progress)) obs.error?
    if (obs.status? = some "completed") ∧ (obs.output_file?).isSome then
      let ofile := (obs.output_file?).getD ""
      let j2 := { j1 with model_file_path := some ofile, output_folder := some (dirname ofile) }
      if s3avail && fileExists then
        (if uploadOk then { j2 with s3_key_pfx := some ("jobs/" ++ job.job_id) } else j2, 1)
      else (j2, 0)
    else (j1, 0)
  else (job, 0)

/-- The /api/status/<job_id> route: it builds a FRESH MeshroomService for
the request (api.py line 174), so the observed dictionary is the lookup in
an empty jobs_status map, and then runs the synchronization block. -/
def check_status_endpoint (job : JobRecord) (fs : List String)
    (s3avail fileExists uploadOk : Bool) (now : Nat) : JobRecord × Nat :=
  check_status_sync job (get_reconstruction_status MeshroomService.init fs job.job_id)
    s3avail fileExists uploadOk now

/-- Externally visible calls made by JobService.delete_job, in order. -/
inductive DelEffect where
  | s3List (pfx : String)
  | s3Delete (keys : List String)
  | rmtreeDir (d : String)
  | dbDelete (job_id : String)
  deriving Repr, DecidableEq

/-- The remote calls delete_job issues before touching anything local:
list the objects under the recorded prefix, and delete them when the list
call succeeded (`some keys`) with a non-empty result.  The delete call's
own outcome is ignored by the source. -/
def s3DeleteEffects (job : JobRecord) (s3avail : Bool) (listRes : Option (List String)) : List DelEffect :=
  if s3avail && job.s3_key_pfx.isSome then
    let pfx := job.s3_key_pfx.getD ""
    match listRes with
    | some keys => if keys.isEmpty then [.s3List pfx] else [.s3List pfx, .s3Delete keys]
    | none => [.s3List pfx]
  else []

/-- The local rmtree calls delete_job issues after the remote attempts:
input folder then output folder, each only when recorded and existing. -/
def localDeleteEffects (st : UploadState) (job : JobRecord) : List DelEffect :=
  (match job.input_folder with
   | some d => if st.hasDir d then [DelEffect.rmtreeDir d] else []
   | none => []) ++
  (match job.output_folder with
   | some d => if st.hasDir d then [DelEffect.rmtreeDir d] else []
   | none => [])

/-- JobService.delete_job (app/services/job_service.py lines 304-358):
find the job (owner-filtered, failure if absent); if an object store is
configured and a key prefix is recorded, list the remote objects under it
and, when the list call succeeds with a non-empty result, call
delete_objects (whose result is ignored — the remote delete is best
effort; `listRes = none` models the list call failing with success=False);
then rmtree the input and output folders when they exist (ignore_errors);
finally delete the job row, cascading its image rows, and commit.
Returns the final store, the effect list in issue order, and success. -/
def delete_job (st : UploadState) (job_id : String) (user_id : Nat)
    (s3avail : Bool) (listRes : Option (List String)) :
    UploadState × List DelEffect × Bool :=
  match findJob st job_id user_id with
  | none => (st, [], false)
  | some job =>
    let st1 := match job.input_folder with | some d => st.rmtree d | none => st
    let st2 := match job.output_folder with | some d => st1.rmtree d | none => st1
    let st3 := { st2 with jobs := st2.jobs.filter (fun j => j.job_id ≠ job_id),
                          images := st2.images.filter (fun i => i.job_id ≠ job.id) }
    (st3, s3DeleteEffects job s3avail listRes ++ localDeleteEffects st job ++ [.dbDelete job_id], true)

/-! Helper lemmas shared by the claim theorems. -/

theorem update_status_status (j : JobRecord) (now : Nat) (s : String)
    (p : Option Rat) (e : Option String) :
    (j.update_status now s p e).status = s := by
  unfold JobRecord.update_status
  cases p <;> cases e <;> dsimp only <;> split <;> first | rfl | (split <;> rfl)

theorem update_status_progress_some (j : JobRecord) (now : Nat) (s : String)
    (p : Rat) (e : Option String) :
    (j.update_status now s (some p) e).progress = p := by
  unfold JobRecord.update_status
  cases e <;> dsimp only <;> split <;> first | rfl | (split <;> rfl)

theorem update_status_progress_none (j : JobRecord) (now : Nat) (s : String)
    (e : Option String) :
    (j.update_status now s none e).progress = j.progress := by
  unfold JobRecord.update_status
  cases e <;> dsimp only <;> split <;> first | rfl | (split <;> rfl)

theorem update_status_error_some (j : JobRecord) (now : Nat) (s : String)
    (p : Option Rat) (m : String) :
    (j.update_status now s p (some m)).error_message = some m := by
  unfold JobRecord.update_status
  cases p <;> dsimp only <;> split <;> first | rfl | (split <;> rfl)

theorem find?_map_entrySelf (l : List (String × MemEntry)) (jid : String) (e : MemEntry)
    (hl : l.any (fun p => p.1 = jid) = true) :
    (List.find? (fun p => p.1 = jid) (l.map (fun p => if p.1 = jid then (p.1, e) else p))).map (·.2)
      = some e := by
  induction l with
  | nil => simp at hl
  | cons a t ih =>
    by_cases ha : a.1 = jid
    · rw [List.map_cons, if_pos ha, List.find?_cons_of_pos _ (by simpa using ha)]
      rfl
    · rw [List.map_cons, if_neg ha, List.find?_cons_of_neg _ (by simpa using ha)]
      apply ih
      simp only [List.any_cons] at hl
      rcases Bool.or_eq_true_iff.mp hl with h1 | h1
      · exact absurd (of_decide_eq_true h1) ha
      · exact h1

theorem find?_map_entryUpdate (l : List (String × MemEntry)) (jid jid2 : String) (e : MemEntry)
    (hne : jid2 ≠ jid) :
    List.find? (fun p => p.1 = jid2) (l.map (fun p => if p.1 = jid then (p.1, e) else p))
      = List.find? (fun p => p.1 = jid2) l := by
  induction l with
  | nil => rfl
  | cons a t ih =>
    by_cases ha : a.1 = jid
    · have ha2 : ¬ a.1 = jid2 := fun hc => hne (hc.symm.trans ha)
      rw [List.map_cons, if_pos ha, List.find?_cons_of_neg _ (by simpa using ha2),
        List.find?_cons_of_neg _ (by simpa using ha2)]
      exact ih
    · rw [List.map_cons, if_neg ha]
      by_cases ha2 : a.1 = jid2
      · rw [List.find?_cons_of_pos _ (by simpa using ha2),
          List.find?_cons_of_pos _ (by simpa using ha2)]
      · rw [List.find?_cons_of_neg _ (by simpa using ha2),
          List.find?_cons_of_neg _ (by simpa using ha2)]
        exact ih

theorem lookup_setEntry_self (svc : MeshroomService) (jid : String) (e : MemEntry) :
    (svc.setEntry jid e).lookup jid = some e := by
  unfold MeshroomService.setEntry MeshroomService.lookup
  by_cases h : svc.jobs_status.any (fun p => p.1 = jid) = true
  · rw [if_pos h]
    exact find?_map_entrySelf svc.jobs_status jid e h
  · rw [if_neg h, List.find?_append]
    have h1 : List.find? (fun p => p.1 = jid) svc.jobs_status = none := by
      rw [List.find?_eq_none]
      intro x hx hpx
      exact h (List.any_eq_true.mpr ⟨x, hx, hpx⟩)
    rw [h1]
    simp [List.find?]

theorem lookup_setEntry_ne (svc : MeshroomService) (jid jid2 : String) (e : MemEntry)
    (hne : jid2 ≠ jid) :
    (svc.setEntry jid e).lookup jid2 = svc.lookup jid2 := by
  unfold MeshroomService.setEntry MeshroomService.lookup
  by_cases h : svc.jobs_status.any (fun p => p.1 = jid) = true
  · rw [if_pos h, find?_map_entryUpdate svc.jobs_status jid jid2 e hne]
  · rw [if_neg h, List.find?_append]
    have h1 : List.find? (fun p => p.1 = jid2) ([(jid, e)] : List (String × MemEntry)) = none := by
      rw [List.find?_eq_none]
      intro x hx
      simp only [List.mem_singleton] at hx
      subst hx
      simpa using hne.symm
    rw [h1]
    simp

/-- How the /api/upload route behaves from an empty store once the
middleware accepts the batch and at least 3 files carry an allowed
extension: the pending job row is committed either way; the image rows and
the job directory survive exactly when at least 3 saved files pass
validation. -/
theorem upload_endpoint_eq (uf jid : String) (uid nid : Nat) (files : List FileData) (t d : Option String)
    (hmw : validate_file_upload files = true)
    (hsaved : 3 ≤ (files.filter (fun f => allowed_file f.filename)).length) :
    upload_endpoint UploadState.empty uf uid nid jid files t d =
      (if ((files.filter (fun f => allowed_file f.filename)).filter validFile).length < 3 then
        ({ jobs := [{ JobRecord.mk0 nid uid jid t d with input_folder := some (uf ++ "/" ++ jid) }],
           images := [], dirs := [] }, false)
      else
        ({ jobs := [{ JobRecord.mk0 nid uid jid t d with input_folder := some (uf ++ "/" ++ jid) }],
           images := (files.filter (fun f => allowed_file f.filename)).map
             (mkJobImage nid (uf ++ "/" ++ jid)),
           dirs := [(uf ++ "/" ++ jid, files.filter (fun f => allowed_file f.filename))] }, true)) := by
  have hfl : ¬ files.length < 3 := by
    have := List.length_filter_le (fun f => allowed_file f.filename) files
    omega
  have hsl : ¬ (files.filter (fun f => allowed_file f.filename)).length < 3 := by omega
  have hff : (files.filter (fun f => allowed_file f.filename)).filter (fun f => allowed_file f.filename)
      = files.filter (fun f => allowed_file f.filename) := by
    rw [List.filter_filter]
    simp
  by_cases hv : (List.filter (fun a => validFile a && allowed_file a.filename) files).length < 3 <;>
  cases t <;> cases d <;>
    simp [upload_endpoint, hmw, create_job, upload_images, findJob, JobRecord.mk0,
      UploadState.empty, UploadState.updateJob, UploadState.rmtree, UploadState.hasDir,
      validate_images, hfl, hsl, hff, hv, ValidationResult.valid]

/-- A structurally sound 1024×768 image with an allowed extension. -/
def imgOk1 : FileData := { filename := "a.jpg", size := 1000, decodes := some (1024, 768) }

/-- A second structurally sound 1024×768 image. -/
def imgOk2 : FileData := { filename := "b.jpg", size := 1000, decodes := some (1024, 768) }

/-- A third structurally sound 1024×768 image. -/
def imgOk3 : FileData := { filename := "d.jpg", size := 1000, decodes := some (1024, 768) }

/-- A decodable but undersized (100×100) image: it passes the middleware
(extension and byte size) but fails validate_images' resolution check. -/
def imgSmall : FileData := { filename := "c.jpg", size := 1000, decodes := some (100, 100) }

/-- C1 counterexample: a middleware-accepted batch of three files of which
only two survive validation.  The upload fails, no Image record and no
directory remain, but a persisted pending Job record for "j1" remains —
create_job committed it before upload_images ran, and no failure branch
deletes it.  This refutes the all-or-nothing part of the claim. -/
theorem C1_counterexample :
    validate_file_upload [imgOk1, imgOk2, imgSmall] = true ∧
    (upload_endpoint UploadState.empty "uploads" 1 1 "j1" [imgOk1, imgOk2, imgSmall] none none).2 = false ∧
    ((upload_endpoint UploadState.empty "uploads" 1 1 "j1" [imgOk1, imgOk2, imgSmall] none none).1.jobs.map
      (·.job_id)) = ["j1"] ∧
    (upload_endpoint UploadState.empty "uploads" 1 1 "j1" [imgOk1, imgOk2, imgSmall] none none).1.images = [] ∧
    (upload_endpoint UploadState.empty "uploads" 1 1 "j1" [imgOk1, imgOk2, imgSmall] none none).1.dirs = [] := by
  refine ⟨?_, ?_, ?_, ?_, ?_⟩ <;> decide

/-- C1 (amended): when a middleware-accepted batch with at least 3
allowed-extension files has fewer than 3 files surviving validation, the
upload fails and neither Image records nor the job directory remain, but
the Job record committed by create_job remains persisted (in its default
pending state, with the now-deleted directory as input_folder). -/
theorem C1_upload_not_atomic (uf jid : String) (uid nid : Nat) (files : List FileData)
    (t d : Option String)
    (hmw : validate_file_upload files = true)
    (hsaved : 3 ≤ (files.filter (fun f => allowed_file f.filename)).length)
    (hv : ((files.filter (fun f => allowed_file f.filename)).filter validFile).length < 3) :
    upload_endpoint UploadState.empty uf uid nid jid files t d =
      ({ jobs := [{ JobRecord.mk0 nid uid jid t d with input_folder := some (uf ++ "/" ++ jid) }],
         images := [], dirs := [] }, false) := by
  rw [upload_endpoint_eq uf jid uid nid files t d hmw hsaved, if_pos hv]

/-- C1 witness: the amended theorem evaluated on the concrete three-file
batch with one undersized image. -/
theorem C1_upload_not_atomic_witness :
    upload_endpoint UploadState.empty "uploads" 1 1 "j1" [imgOk1, imgOk2, imgSmall] none none =
      ({ jobs := [{ JobRecord.mk0 1 1 "j1" none none with input_folder := some "uploads/j1" }],
         images := [], dirs := [] }, false) :=
  C1_upload_not_atomic "uploads" "j1" 1 1 [imgOk1, imgOk2, imgSmall] none none
    (by decide) (by decide) (by decide)

/-- C8 counterexample: in a successful upload, a decodable-but-undersized
file is only dropped from the validator's valid set — it is still saved
and persisted as an Image record.  Batch = three sound images plus the
100×100 one; the upload succeeds and "c.jpg" is among the persisted
image rows, so it is not dropped from the accepted set. -/
theorem C8_counterexample :
    validFile imgSmall = false ∧
    validate_file_upload [imgOk1, imgOk2, imgOk3, imgSmall] = true ∧
    (upload_endpoint UploadState.empty "uploads" 1 1 "j1" [imgOk1, imgOk2, imgOk3, imgSmall] none none).2 = true ∧
    ((upload_endpoint UploadState.empty "uploads" 1 1 "j1" [imgOk1, imgOk2, imgOk3, imgSmall] none none).1.images.map
      (·.filename)) = ["a.jpg", "b.jpg", "d.jpg", "c.jpg"] := by
  refine ⟨?_, ?_, ?_, ?_⟩ <;> decide

/-- C8 (amended): a candidate file that does not decode, or whose decoded
dimensions are below 800×600, or whose size exceeds 50 MB, fails the
per-file validation; the batch passes validate_images iff at least 3 saved
files survive; fewer than 3 survivors fail the whole upload (with no image
rows committed), while with 3 or more survivors the upload succeeds — and
then EVERY allowed-extension file is persisted as an image row, including
the ones dropped by the validator. -/
theorem C8_per_file_validation (files : List FileData) (f : FileData) (w h : Nat)
    (uf jid : String) (uid nid : Nat) (t d : Option String)
    (hmw : validate_file_upload files = true)
    (hsaved : 3 ≤ (files.filter (fun g => allowed_file g.filename)).length) :
    (f.decodes = none → validFile f = false) ∧
    (f.decodes = some (w, h) →
      (validFile f = false ↔ (w < 800 ∨ h < 600 ∨ 50 * 1024 * 1024 < f.size))) ∧
    ((validate_images (some files)).valid = true ↔
       3 ≤ ((files.filter (fun g => allowed_file g.filename)).filter validFile).length) ∧
    (((files.filter (fun g => allowed_file g.filename)).filter validFile).length < 3 →
       (upload_endpoint UploadState.empty uf uid nid jid files t d).2 = false ∧
       (upload_endpoint UploadState.empty uf uid nid jid files t d).1.images = []) ∧
    (3 ≤ ((files.filter (fun g => allowed_file g.filename)).filter validFile).length →
       (upload_endpoint UploadState.empty uf uid nid jid files t d).2 = true ∧
       (upload_endpoint UploadState.empty uf uid nid jid files t d).1.images
         = (files.filter (fun g => allowed_file g.filename)).map (mkJobImage nid (uf ++ "/" ++ jid))) := by
  have hsl : ¬ (files.filter (fun g => allowed_file g.filename)).length < 3 := by omega
  refine ⟨?_, ?_, ?_, ?_, ?_⟩
  · intro hdec
    simp [validFile, hdec]
  · intro hdec
    by_cases h1 : w < 800 <;> by_cases h2 : h < 600 <;> by_cases h3 : 50 * 1024 * 1024 < f.size <;>
      simp [validFile, hdec, h1, h2, h3]
  · rw [List.filter_filter]
    by_cases hv : (files.filter (fun a => validFile a && allowed_file a.filename)).length < 3 <;>
      simp [validate_images, hsl, hv] <;> omega
  · intro hv
    rw [upload_endpoint_eq uf jid uid nid files t d hmw hsaved, if_pos hv]
    exact ⟨rfl, rfl⟩
  · intro hge
    rw [upload_endpoint_eq uf jid uid nid files t d hmw hsaved, if_neg (by omega)]
    exact ⟨rfl, rfl⟩

/-- C8 witness: the amended theorem evaluated on the concrete batch of
three sound images plus the undersized one. -/
theorem C8_per_file_validation_witness :
    validFile imgSmall = false ∧
    (validate_images (some [imgOk1, imgOk2, imgOk3, imgSmall])).valid = true ∧
    (upload_endpoint UploadState.empty "uploads" 1 1 "j1" [imgOk1, imgOk2, imgOk3, imgSmall] none none).2 = true := by
  have hthm := C8_per_file_validation [imgOk1, imgOk2, imgOk3, imgSmall] imgSmall 100 100
    "uploads" "j1" 1 1 none none (by decide) (by decide)
  exact ⟨(hthm.2.1 (by decide)).mpr (Or.inl (by decide)),
    hthm.2.2.1.mpr (by decide), (hthm.2.2.2.2 (by decide)).1⟩

/-- C2: a reconstruct request on a job whose persisted status is "running"
or "completed" is rejected with the status-precondition error, and the
store and service state are returned exactly unchanged; conversely, any
request that reaches "started" found a job in status "pending" or
"failed". -/
theorem C2_reconstruct_precondition (st : UploadState) (svc : MeshroomService)
    (job_id : String) (user_id : Nat) (quality preset models_folder temp_root startErr : String)
    (startOk : Bool) (now : Nat) (job : JobRecord)
    (hfind : findJob st job_id user_id = some job)
    (hstatus : job.status = "running" ∨ job.status = "completed") :
    reconstruct_3d st svc job_id user_id quality preset models_folder temp_root startOk startErr now
      = (st, svc, ReconOutcome.badStatus job.status) ∧
    (∀ (st2 : UploadState) (svc2 : MeshroomService) (jid2 : String) (uid2 : Nat)
        (q2 p2 mf2 tr2 err2 : String) (ok2 : Bool) (now2 : Nat),
      (reconstruct_3d st2 svc2 jid2 uid2 q2 p2 mf2 tr2 ok2 err2 now2).2.2 = ReconOutcome.started →
      ∃ j2, findJob st2 jid2 uid2 = some j2 ∧ (j2.status = "pending" ∨ j2.status = "failed")) := by
  constructor
  · rcases hstatus with hs | hs <;> simp [reconstruct_3d, hfind, hs]
  · intro st2 svc2 jid2 uid2 q2 p2 mf2 tr2 err2 ok2 now2 hstart
    unfold reconstruct_3d at hstart
    cases hf : findJob st2 jid2 uid2 with
    | none =>
      rw [hf] at hstart
      simp at hstart
    | some j2 =>
      rw [hf] at hstart
      refine ⟨j2, rfl, ?_⟩
      by_cases hs : (j2.status = "pending" || j2.status = "failed") = true
      · simpa using hs
      · exfalso
        rw [Bool.not_eq_true] at hs
        simp [hs] at hstart

/-- A persisted job sitting in status "running". -/
def jobRunningC2 : JobRecord := { JobRecord.mk0 1 1 "j1" none none with status := "running" }

/-- C2 witness: the precondition theorem evaluated on a store holding one
running job. -/
theorem C2_reconstruct_precondition_witness :
    reconstruct_3d { jobs := [jobRunningC2], images := [], dirs := [] } MeshroomService.init
        "j1" 1 "low" "default" "models" "temp" true "" 0
      = ({ jobs := [jobRunningC2], images := [], dirs := [] }, MeshroomService.init,
         ReconOutcome.badStatus "running") := by
  have h := C2_reconstruct_precondition { jobs := [jobRunningC2], images := [], dirs := [] }
    MeshroomService.init "j1" 1 "low" "default" "models" "temp" "" true 0 jobRunningC2
    (by decide) (Or.inl rfl)
  exact h.1

/-- C4: over the persisted updates a run issues — exit code 0 ends the job
"completed" with progress forced to 100 (whether or not an artifact was
located); any non-zero exit ends it "failed" with error_message set from
the captured stderr; a launch failure or exception ends it "failed" with
the exception text. -/
theorem C4_run_transitions (j : JobRecord) (now : Nat) (so se msg : String) (c : Int) (hc : c ≠ 0) :
    ((applyUpdates j now (runUpdates (.exited 0 so se))).status = "completed" ∧
     (applyUpdates j now (runUpdates (.exited 0 so se))).progress = 100) ∧
    ((applyUpdates j now (runUpdates (.exited c so se))).status = "failed" ∧
     (applyUpdates j now (runUpdates (.exited c so se))).error_message = some ("重建失败: " ++ se)) ∧
    ((applyUpdates j now (runUpdates (.raised msg))).status = "failed" ∧
     (applyUpdates j now (runUpdates (.raised msg))).error_message = some ("重建过程出错: " ++ msg)) := by
  refine ⟨⟨?_, ?_⟩, ⟨?_, ?_⟩, ⟨?_, ?_⟩⟩ <;>
    simp [applyUpdates, runUpdates, threadUpdates, hc, update_status_status,
      update_status_progress_some, update_status_error_some]

/-- C4 witness: exit 1 with stderr "out of memory" ends failed and the
error message, "重建失败: " ++ "out of memory", contains the stderr text as
a suffix; exit 0 ends completed at progress 100. -/
theorem C4_run_transitions_witness :
    (applyUpdates (JobRecord.mk0 1 1 "j1" none none) 0 (runUpdates (.exited 1 "" "out of memory"))).status = "failed" ∧
    (applyUpdates (JobRecord.mk0 1 1 "j1" none none) 0 (runUpdates (.exited 1 "" "out of memory"))).error_message
      = some ("重建失败: " ++ "out of memory") ∧
    (applyUpdates (JobRecord.mk0 1 1 "j1" none none) 0 (runUpdates (.exited 0 "" "out of memory"))).status = "completed" ∧
    (applyUpdates (JobRecord.mk0 1 1 "j1" none none) 0 (runUpdates (.exited 0 "" "out of memory"))).progress = 100 := by
  have h := C4_run_transitions (JobRecord.mk0 1 1 "j1" none none) 0 "" "out of memory" "x" 1 (by decide)
  exact ⟨h.2.1.1, h.2.1.2, h.1.1, h.1.2⟩


/-- Is this delete-job effect a remote object-store call? -/
def DelEffect.isRemote : DelEffect → Bool
  | .s3List _ => true
  | .s3Delete _ => true
  | _ => false

/-- Is this delete-job effect a local directory removal? -/
def DelEffect.isLocalFs : DelEffect → Bool
  | .rmtreeDir _ => true
  | _ => false

theorem any_key_filter_self (dl : List (String × List FileData)) (dir : String) :
    ((dl.filter (fun p => p.1 ≠ dir)).any (fun p => p.1 = dir)) = false := by
  rw [List.any_eq_false]
  intro a ha
  have h2 := (List.mem_filter.mp ha).2
  simp at h2 ⊢
  exact h2

theorem any_filter_of_any_false (dl : List (String × List FileData))
    (q k : (String × List FileData) → Bool) (h : dl.any k = false) :
    (dl.filter q).any k = false := by
  rw [List.any_eq_false] at h ⊢
  intro a ha
  exact h a (List.mem_of_mem_filter ha)

theorem s3DeleteEffects_remote (job : JobRecord) (s3a : Bool) (lr : Option (List String)) :
    ∀ e ∈ s3DeleteEffects job s3a lr, e.isRemote = true := by
  intro e he
  unfold s3DeleteEffects at he
  by_cases hb : (s3a && job.s3_key_pfx.isSome) = true
  · rw [if_pos hb] at he
    cases lr with
    | none =>
      dsimp only at he
      simp at he
      subst he
      rfl
    | some keys =>
      dsimp only at he
      by_cases hk : keys.isEmpty = true
      · rw [if_pos hk] at he
        simp at he
        subst he
        rfl
      · rw [if_neg hk] at he
        rcases (by simpa using he : e = DelEffect.s3List _ ∨ e = DelEffect.s3Delete keys) with rfl | rfl <;> rfl
  · rw [if_neg hb] at he
    simp at he

theorem localDeleteEffects_local (st : UploadState) (job : JobRecord) :
    ∀ e ∈ localDeleteEffects st job, e.isLocalFs = true := by
  intro e he
  unfold localDeleteEffects at he
  rw [List.mem_append] at he
  rcases he with he | he
  · cases hin : job.input_folder with
    | none =>
      rw [hin] at he
      simp at he
    | some d =>
      rw [hin] at he
      dsimp only at he
      by_cases hd : st.hasDir d = true
      · rw [if_pos hd] at he
        simp at he
        subst he
        rfl
      · rw [if_neg hd] at he
        simp at he
  · cases hout : job.output_folder with
    | none =>
      rw [hout] at he
      simp at he
    | some d =>
      rw [hout] at he
      dsimp only at he
      by_cases hd : st.hasDir d = true
      · rw [if_pos hd] at he
        simp at he
        subst he
        rfl
      · rw [if_neg hd] at he
        simp at he

/-- C5: whenever the job is found, delete_job succeeds and afterwards no
job row with that external id, no image row of that job, and neither the
input nor the output directory remain — for EVERY outcome of the remote
side (object store absent, list call failed = none, or any key list), so a
remote-delete failure never blocks local and persisted deletion; moreover
the effect order is: remote calls first, local directory removals second,
and the database delete strictly last. -/
theorem C5_delete_job_order (st : UploadState) (job_id : String) (user_id : Nat)
    (s3avail : Bool) (listRes : Option (List String)) (job : JobRecord)
    (hfind : findJob st job_id user_id = some job) :
    (delete_job st job_id user_id s3avail listRes).2.2 = true ∧
    (∀ j ∈ (delete_job st job_id user_id s3avail listRes).1.jobs, j.job_id ≠ job_id) ∧
    (∀ i ∈ (delete_job st job_id user_id s3avail listRes).1.images, i.job_id ≠ job.id) ∧
    (∀ dir, job.input_folder = some dir →
      (delete_job st job_id user_id s3avail listRes).1.hasDir dir = false) ∧
    (∀ dir, job.output_folder = some dir →
      (delete_job st job_id user_id s3avail listRes).1.hasDir dir = false) ∧
    (delete_job st job_id user_id s3avail listRes).2.1
      = s3DeleteEffects job s3avail listRes ++ localDeleteEffects st job ++ [DelEffect.dbDelete job_id] ∧
    (∀ e ∈ s3DeleteEffects job s3avail listRes, e.isRemote = true) ∧
    (∀ e ∈ localDeleteEffects st job, e.isLocalFs = true) := by
  unfold delete_job
  rw [hfind]
  dsimp only
  refine ⟨rfl, ?_, ?_, ?_, ?_, rfl, s3DeleteEffects_remote job s3avail listRes,
    localDeleteEffects_local st job⟩
  · intro jj hjj
    have h2 := (List.mem_filter.mp hjj).2
    simpa using h2
  · intro ii hii
    have h2 := (List.mem_filter.mp hii).2
    simpa using h2
  · intro dir hdir
    rw [hdir]
    cases hout : job.output_folder with
    | none =>
      simp only [UploadState.hasDir, UploadState.rmtree]
      exact any_key_filter_self st.dirs dir
    | some d2 =>
      simp only [UploadState.hasDir, UploadState.rmtree]
      exact any_filter_of_any_false _ _ _ (any_key_filter_self st.dirs dir)
  · intro dir hdir
    rw [hdir]
    cases hin : job.input_folder with
    | none =>
      simp only [UploadState.hasDir, UploadState.rmtree]
      exact any_key_filter_self st.dirs dir
    | some d1 =>
      simp only [UploadState.hasDir, UploadState.rmtree]
      exact any_key_filter_self _ dir


/-- A completed job with a recorded remote prefix and both directories. -/
def jobDelC5 : JobRecord :=
  { JobRecord.mk0 7 1 "j5" none none with
    s3_key_pfx := some "jobs/j5", input_folder := some "uploads/j5",
    output_folder := some "models/j5", status := "completed" }

/-- A store holding that job, one of its image rows, both directories. -/
def stDelC5 : UploadState :=
  { jobs := [jobDelC5],
    images := [mkJobImage 7 "uploads/j5" imgOk1],
    dirs := [("uploads/j5", [imgOk1]), ("models/j5", [])] }

/-- C5 witness: deletion with a FAILED remote list call (listRes = none)
still succeeds, removes both directories, and issues the remote attempt
first and the database delete last. -/
theorem C5_delete_job_order_witness :
    (delete_job stDelC5 "j5" 1 true none).2.2 = true ∧
    (delete_job stDelC5 "j5" 1 true none).1.hasDir "uploads/j5" = false ∧
    (delete_job stDelC5 "j5" 1 true none).1.hasDir "models/j5" = false ∧
    (delete_job stDelC5 "j5" 1 true none).2.1
      = [DelEffect.s3List "jobs/j5", DelEffect.rmtreeDir "uploads/j5",
         DelEffect.rmtreeDir "models/j5", DelEffect.dbDelete "j5"] := by
  have h := C5_delete_job_order stDelC5 "j5" 1 true none jobDelC5 (by decide)
  refine ⟨h.1, h.2.2.2.1 "uploads/j5" rfl, h.2.2.2.2.1 "models/j5" rfl, ?_⟩
  rw [h.2.2.2.2.2.1]
  decide

/-- The first monitor sample (elapsed = 0) writes progress 0. -/
theorem monitorProgress_zero : monitorProgress 0 = 0 := by
  unfold monitorProgress
  rw [show ((0 : Rat) / 60 * 10) = 0 by norm_num, Int.floor_zero]
  exact min_eq_right (by norm_num)

/-- C6 counterexample: the in-memory progress of a run whose monitor loop
samples once at elapsed 0 takes the values 0 (seeded), 10 (pre-launch),
0 (first monitor estimate min(90, int(0/60*10))), 100 — which is not
non-decreasing: the pre-launch 10 is overwritten by 0 mid-run, with no new
run having been entered. -/
theorem C6_counterexample :
    memProgressWrites [0] (.exited 0 "" "") = [0, 10, 0, 100] ∧
    ¬ List.Chain' (fun a b : Rat => a ≤ b) (memProgressWrites [0] (.exited 0 "" "")) := by
  have hl : memProgressWrites [0] (.exited 0 "" "") = [0, 10, 0, 100] := by
    simp [memProgressWrites, monitorProgress_zero]
  refine ⟨hl, ?_⟩
  intro hch
  rw [hl, List.chain'_cons, List.chain'_cons] at hch
  have h10 := hch.2.1
  norm_num at h10


/-- The time-based monitor estimate is monotone in elapsed time. -/
theorem monitorProgress_mono (t1 t2 : Rat) (h12 : t1 ≤ t2) :
    monitorProgress t1 ≤ monitorProgress t2 := by
  unfold monitorProgress
  have h60 : (0 : Rat) < 60 := by norm_num
  have hd : t1 / 60 * 10 ≤ t2 / 60 * 10 :=
    mul_le_mul_of_nonneg_right ((div_le_div_iff_of_pos_right h60).mpr h12) (by norm_num)
  exact min_le_min (le_refl 90) (Int.floor_le_floor hd)

/-- The monitor estimate stays within [0, 100] for nonnegative elapsed. -/
theorem monitorProgress_bounds (t : Rat) (h0 : 0 ≤ t) :
    0 ≤ monitorProgress t ∧ monitorProgress t ≤ 100 := by
  unfold monitorProgress
  constructor
  · exact le_min (by norm_num)
      (Int.floor_nonneg.mpr (mul_nonneg (div_nonneg h0 (by norm_num)) (by norm_num)))
  · exact le_trans (min_le_left _ _) (by norm_num)

/-- C6 (amended): every status a run writes is one of the five defined
values and every progress written lies in [0,100]; the PERSISTED progress
trace of a run is non-decreasing after the reset at run entry, and resets
to 0 only in the two run-entry updates; the time-based monitor estimate is
monotone and bounded.  The IN-MEMORY progress, however, is not
non-decreasing (see the counterexample): the first monitor sample
overwrites the pre-launch value 10 with min(90, int(elapsed/60*10)). -/
theorem C6_amended (res : ProcResult) (j : JobRecord) (now : Nat) :
    (∀ e ∈ runUpdates res, e.status ∈ validStatuses) ∧
    (∀ e ∈ runUpdates res, ∀ p, e.progress = some p → 0 ≤ p ∧ p ≤ 100) ∧
    List.Chain' (fun a b : Rat => a ≤ b) ((progressTrace j now (runUpdates res)).drop 1) ∧
    (∀ q ∈ (progressTrace j now (runUpdates res)).drop 1, 0 ≤ q ∧ q ≤ 100) ∧
    (∀ t1 t2 : Rat, t1 ≤ t2 → monitorProgress t1 ≤ monitorProgress t2) ∧
    (∀ t : Rat, 0 ≤ t → 0 ≤ monitorProgress t ∧ monitorProgress t ≤ 100) ∧
    (∀ e ∈ (runUpdates res).drop 2, e.progress ≠ some 0) := by
  refine ⟨?_, ?_, ?_, ?_, monitorProgress_mono, monitorProgress_bounds, ?_⟩
  · rcases res with ⟨code, so, se⟩ | msg
    · by_cases hc : code = 0 <;>
        (intro e he
         rcases (by simpa [runUpdates, threadUpdates, hc] using he) with rfl | rfl | rfl | rfl | rfl | rfl <;>
           simp [validStatuses])
    · intro e he
      rcases (by simpa [runUpdates, threadUpdates] using he) with rfl | rfl | rfl | rfl | rfl | rfl <;>
        simp [validStatuses]
  · rcases res with ⟨code, so, se⟩ | msg
    · by_cases hc : code = 0 <;>
        (intro e he p hp
         rcases (by simpa [runUpdates, threadUpdates, hc] using he) with rfl | rfl | rfl | rfl | rfl | rfl <;>
           (simp at hp) <;> (subst hp; norm_num))
    · intro e he p hp
      rcases (by simpa [runUpdates, threadUpdates] using he) with rfl | rfl | rfl | rfl | rfl | rfl <;>
        (simp at hp) <;> (subst hp; norm_num)
  · rcases res with ⟨code, so, se⟩ | msg
    · by_cases hc : code = 0 <;>
        (simp [progressTrace, runUpdates, threadUpdates, hc, List.scanl,
           update_status_progress_some, update_status_progress_none]
         norm_num [List.chain'_cons])
    · simp [progressTrace, runUpdates, threadUpdates, List.scanl,
        update_status_progress_some, update_status_progress_none]
      norm_num [List.chain'_cons]
  · rcases res with ⟨code, so, se⟩ | msg
    · by_cases hc : code = 0 <;>
        (intro q hq
         rcases (by simpa [progressTrace, runUpdates, threadUpdates, hc, List.scanl,
           update_status_progress_some, update_status_progress_none] using hq)
           with rfl | rfl | rfl | rfl | rfl | rfl <;> norm_num)
    · intro q hq
      rcases (by simpa [progressTrace, runUpdates, threadUpdates, List.scanl,
        update_status_progress_some, update_status_progress_none] using hq)
        with rfl | rfl | rfl | rfl | rfl | rfl <;> norm_num
  · rcases res with ⟨code, so, se⟩ | msg
    · by_cases hc : code = 0 <;>
        (intro e he
         rcases (by simpa [runUpdates, threadUpdates, hc] using he) with rfl | rfl | rfl | rfl <;>
           simp)
    · intro e he
      rcases (by simpa [runUpdates, threadUpdates] using he) with rfl | rfl | rfl | rfl <;>
        simp


/-- C6 witness: the amended theorem evaluated on a successful run — the
run-entry update carries a valid status, and the monitor estimate is
monotone and bounded at elapsed times 0 and 30. -/
theorem C6_amended_witness :
    (({ status := "running", progress := some 0, error_message := none } : UpdateEvent).status ∈ validStatuses) ∧
    monitorProgress 0 ≤ monitorProgress 30 ∧
    (0 ≤ monitorProgress 30 ∧ monitorProgress 30 ≤ 100) := by
  have h := C6_amended (.exited 0 "" "") (JobRecord.mk0 1 1 "j1" none none) 0
  refine ⟨?_, h.2.2.2.2.1 0 30 (by norm_num), h.2.2.2.2.2.1 30 (by norm_num)⟩
  exact h.1 _ (by simp [runUpdates, threadUpdates])


/-- Appending one more path keeps a membership check false when the sought
path is absent and differs from the appended one. -/
theorem contains_append_singleton_false (fs : List String) (x t : String)
    (h1 : fs.contains t = false) (h2 : t ≠ x) :
    (fs ++ [x]).contains t = false := by
  rw [Bool.eq_false_iff]
  intro hc
  simp at hc h1
  rcases hc with hc | hc
  · exact h1 hc
  · exact h2 hc

/-- C7: when the engine exits 0 but no artifact is found under any of the
working-directory glob locations, the run still marks the in-memory entry
"completed" with progress 100 (output_file stays None — the source's
_process_output has no return statement), and a subsequent status query on
the same service instance reports that completed state with
model_ready = false instead of a failure. -/
theorem C7_silent_completion (svc0 : MeshroomService) (fs : List String)
    (job_id input_folder models_folder temp_root quality preset so se : String)
    (hg1 : glob1 (temp_root ++ "/" ++ job_id ++ "/Texturing") ".obj" fs = [])
    (hg2 : glob1 (temp_root ++ "/" ++ job_id ++ "/Meshing") ".obj" fs = [])
    (hg3 : glob1 (temp_root ++ "/" ++ job_id) ".obj" fs = [])
    (hnm : fs.contains (models_folder ++ "/" ++ job_id ++ "/" ++ job_id ++ ".obj") = false)
    (hinfo : models_folder ++ "/" ++ job_id ++ "/" ++ job_id ++ ".obj"
        ≠ models_folder ++ "/" ++ job_id ++ "/model_info.json") :
    ∃ e, (run_reconstruction_mem
            (start_reconstruction_mem svc0 job_id input_folder models_folder temp_root quality preset)
            fs job_id (.exited 0 so se)).1.lookup job_id = some e ∧
      e.status = "completed" ∧ e.progress = 100 ∧ e.output_file = none ∧
      get_reconstruction_status
        (run_reconstruction_mem
          (start_reconstruction_mem svc0 job_id input_folder models_folder temp_root quality preset)
          fs job_id (.exited 0 so se)).1
        (run_reconstruction_mem
          (start_reconstruction_mem svc0 job_id input_folder models_folder temp_root quality preset)
          fs job_id (.exited 0 so se)).2
        job_id = .st e (some false) := by
  have hset := lookup_setEntry_self svc0 job_id
    { status := "initializing", progress := 0, message := "初始化重建任务...",
      input_folder := input_folder, output_folder := models_folder ++ "/" ++ job_id,
      temp_folder := temp_root ++ "/" ++ job_id, quality := quality, preset := preset,
      output_file := none }
  unfold run_reconstruction_mem start_reconstruction_mem
  rw [hset]
  dsimp only
  rw [if_pos rfl]
  unfold process_output
  simp only [List.filterMap_cons, List.filterMap_nil, hg1, hg2, hg3, List.head?_nil]
  refine ⟨_, lookup_setEntry_self _ _ _, rfl, rfl, rfl, ?_⟩
  unfold get_reconstruction_status
  rw [lookup_setEntry_self]
  dsimp only
  rw [contains_append_singleton_false fs _ _ hnm hinfo]
  rw [if_pos rfl]


/-- C7 witness: a concrete artifact-less successful run on a fresh service
and an empty filesystem. -/
theorem C7_silent_completion_witness :
    ∃ e, (run_reconstruction_mem
            (start_reconstruction_mem MeshroomService.init "j1" "uploads/j1" "models" "temp" "low" "default")
            [] "j1" (.exited 0 "" "")).1.lookup "j1" = some e ∧
      e.status = "completed" ∧ e.progress = 100 ∧ e.output_file = none ∧
      get_reconstruction_status
        (run_reconstruction_mem
          (start_reconstruction_mem MeshroomService.init "j1" "uploads/j1" "models" "temp" "low" "default")
          [] "j1" (.exited 0 "" "")).1
        (run_reconstruction_mem
          (start_reconstruction_mem MeshroomService.init "j1" "uploads/j1" "models" "temp" "low" "default")
          [] "j1" (.exited 0 "" "")).2
        "j1" = .st e (some false) :=
  C7_silent_completion MeshroomService.init [] "j1" "uploads/j1" "models" "temp" "low" "default" "" ""
    rfl rfl rfl rfl (by decide)


/-- C9: the engine invocation starts with the meshroom executable and
contains the explicit `--input`, `--output` and `--cache` directory
argument pairs and the `--verbose info` flag, and maps the quality tier to
a preset flag as low→draft, medium→default, high→detailed. -/
theorem C9_command_arguments (mp inf outf tf q : String) :
    List.IsInfix ["--input", inf] (build_meshroom_command mp inf outf tf q) ∧
    List.IsInfix ["--output", outf] (build_meshroom_command mp inf outf tf q) ∧
    List.IsInfix ["--cache", tf] (build_meshroom_command mp inf outf tf q) ∧
    List.IsInfix ["--verbose", "info"] (build_meshroom_command mp inf outf tf q) ∧
    (build_meshroom_command mp inf outf tf q).head? = some mp ∧
    (q = "low" → List.IsInfix ["--preset", "draft"] (build_meshroom_command mp inf outf tf q)) ∧
    (q = "medium" → List.IsInfix ["--preset", "default"] (build_meshroom_command mp inf outf tf q)) ∧
    (q = "high" → List.IsInfix ["--preset", "detailed"] (build_meshroom_command mp inf outf tf q)) := by
  refine ⟨⟨[mp], ["--output", outf, "--cache", tf] ++ quality_settings q ++
      ["--verbose", "info", "--save", tf ++ "/pipeline.mg"], ?_⟩,
    ⟨[mp, "--input", inf], ["--cache", tf] ++ quality_settings q ++
      ["--verbose", "info", "--save", tf ++ "/pipeline.mg"], ?_⟩,
    ⟨[mp, "--input", inf, "--output", outf], quality_settings q ++
      ["--verbose", "info", "--save", tf ++ "/pipeline.mg"], ?_⟩,
    ⟨[mp, "--input", inf, "--output", outf, "--cache", tf] ++ quality_settings q,
      ["--save", tf ++ "/pipeline.mg"], ?_⟩, ?_, ?_, ?_, ?_⟩
  · simp [build_meshroom_command]
  · simp [build_meshroom_command]
  · simp [build_meshroom_command]
  · simp [build_meshroom_command]
  · rfl
  · intro hq
    subst hq
    exact ⟨[mp, "--input", inf, "--output", outf, "--cache", tf],
      ["--verbose", "info", "--save", tf ++ "/pipeline.mg"],
      by simp [build_meshroom_command, quality_settings]⟩
  · intro hq
    subst hq
    exact ⟨[mp, "--input", inf, "--output", outf, "--cache", tf],
      ["--verbose", "info", "--save", tf ++ "/pipeline.mg"],
      by simp [build_meshroom_command, quality_settings]⟩
  · intro hq
    subst hq
    exact ⟨[mp, "--input", inf, "--output", outf, "--cache", tf],
      ["--verbose", "info", "--save", tf ++ "/pipeline.mg"],
      by simp [build_meshroom_command, quality_settings]⟩

/-- C9 witness: the command built for quality "low" carries the draft
preset, the input directory and the verbosity flag. -/
theorem C9_command_arguments_witness :
    List.IsInfix ["--preset", "draft"] (build_meshroom_command "meshroom_batch" "in" "out" "tmp" "low") ∧
    List.IsInfix ["--input", "in"] (build_meshroom_command "meshroom_batch" "in" "out" "tmp" "low") ∧
    List.IsInfix ["--verbose", "info"] (build_meshroom_command "meshroom_batch" "in" "out" "tmp" "low") := by
  have h := C9_command_arguments "meshroom_batch" "in" "out" "tmp" "low"
  exact ⟨h.2.2.2.2.2.1 rfl, h.1, h.2.2.2.1⟩


/-- C10: a newly constructed MeshroomService starts with an empty
jobs_status map, get_reconstruction_status answers {'error': '任务不存在'}
for every job id whose entry is absent (in particular for every id not
started through that instance, since start_reconstruction only adds its
own id), and the status endpoint — which builds a FRESH service per
request — therefore always synchronizes against that error observation,
never against a run launched by another instance. -/
theorem C10_fresh_instance (fs : List String) (jid : String) (svc : MeshroomService)
    (hsvc : svc.lookup jid = none) :
    MeshroomService.init.jobs_status = [] ∧
    get_reconstruction_status MeshroomService.init fs jid = .err "任务不存在" ∧
    get_reconstruction_status svc fs jid = .err "任务不存在" ∧
    (∀ (svc2 : MeshroomService) (jid0 a b c q p jid2 : String), jid2 ≠ jid0 →
      (start_reconstruction_mem svc2 jid0 a b c q p).lookup jid2 = svc2.lookup jid2) ∧
    (∀ (job : JobRecord) (s3 fe uo : Bool) (now : Nat),
      check_status_endpoint job fs s3 fe uo now
        = check_status_sync job (MeshObs.err "任务不存在") s3 fe uo now) := by
  refine ⟨rfl, rfl, ?_, ?_, ?_⟩
  · unfold get_reconstruction_status
    rw [hsvc]
  · intro svc2 jid0 a b c q p jid2 hne
    unfold start_reconstruction_mem
    exact lookup_setEntry_ne svc2 jid0 jid2 _ hne
  · intro job s3 fe uo now
    rfl

/-- C10 witness: the fresh-instance theorem evaluated at a concrete
filesystem and an id never started on the instance. -/
theorem C10_fresh_instance_witness :
    get_reconstruction_status MeshroomService.init ["models/j1/j1.obj"] "zz" = .err "任务不存在" ∧
    (start_reconstruction_mem MeshroomService.init "j1" "a" "b" "c" "low" "default").lookup "zz"
      = MeshroomService.init.lookup "zz" := by
  have h := C10_fresh_instance ["models/j1/j1.obj"] "zz" MeshroomService.init rfl
  exact ⟨h.2.1, h.2.2.2.1 MeshroomService.init "j1" "a" "b" "c" "low" "default" "zz" (by decide)⟩


/-- Synchronizing against the unknown-job error dictionary performs no
object-store upload. -/
theorem sync_err_uploads (j : JobRecord) (m : String) (s3 fe uo : Bool) (now : Nat) :
    (check_status_sync j (MeshObs.err m) s3 fe uo now).2 = 0 := by
  unfold check_status_sync
  rw [if_pos (by simp [MeshObs.status?])]
  rw [if_neg (by simp [MeshObs.status?])]

/-- When the observed status differs from the persisted one, the
synchronization writes the observed status into the record. -/
theorem sync_st_status (j : JobRecord) (e : MemEntry) (mr : Option Bool)
    (s3 fe uo : Bool) (now : Nat) (hne : ¬ e.status = j.status) :
    (check_status_sync j (MeshObs.st e mr) s3 fe uo now).1.status = e.status := by
  unfold check_status_sync
  rw [if_pos (by simp [MeshObs.status?, hne])]
  by_cases hc : ((MeshObs.st e mr).status? = some "completed") ∧ ((MeshObs.st e mr).output_file?).isSome = true
  · rw [if_pos hc]
    by_cases hsf : (s3 && fe) = true
    · rw [if_pos hsf]
      by_cases hu : uo = true
      · simp [hu, update_status_status, MeshObs.status?]
      · simp [hu, update_status_status, MeshObs.status?]
    · rw [if_neg hsf]
      simp [update_status_status, MeshObs.status?]
  · rw [if_neg hc]
    simp [update_status_status, MeshObs.status?]

/-- C3 (amended): polling a completed job twice triggers at most one
materialization — in fact zero through the endpoint: a second
synchronization against the SAME observation never uploads (the guard is
the observed-vs-persisted status inequality, which the first pass
extinguishes), and the endpoint's per-request fresh service observes only
the unknown-job error, so its upload count is always 0 and two successive
polls total at most one upload. -/
theorem C3_amended (job : JobRecord) (obs : MeshObs) (s3 fe uo : Bool) (now now2 : Nat) (fs : List String) :
    (check_status_sync (check_status_sync job obs s3 fe uo now).1 obs s3 fe uo now2).2 = 0 ∧
    (check_status_endpoint job fs s3 fe uo now).2 = 0 ∧
    (check_status_endpoint job fs s3 fe uo now).2 +
      (check_status_endpoint (check_status_endpoint job fs s3 fe uo now).1 fs s3 fe uo now2).2 ≤ 1 := by
  have hend : ∀ (j : JobRecord) (n : Nat), (check_status_endpoint j fs s3 fe uo n).2 = 0 := by
    intro j n
    unfold check_status_endpoint
    have : get_reconstruction_status MeshroomService.init fs j.job_id = .err "任务不存在" := rfl
    rw [this]
    exact sync_err_uploads j _ s3 fe uo n
  refine ⟨?_, hend job now, ?_⟩
  · cases obs with
    | err m => exact sync_err_uploads _ m s3 fe uo now2
    | st e mr =>
      by_cases he : e.status = job.status
      · have h1 : (check_status_sync job (MeshObs.st e mr) s3 fe uo now) = (job, 0) := by
          unfold check_status_sync
          rw [if_neg (by simp [MeshObs.status?, he])]
        rw [h1]
        unfold check_status_sync
        rw [if_neg (by simp [MeshObs.status?, he])]
      · have h1 := sync_st_status job e mr s3 fe uo now he
        set j2 := (check_status_sync job (MeshObs.st e mr) s3 fe uo now).1 with hj2
        unfold check_status_sync
        rw [if_neg (by simp [MeshObs.status?, h1])]
  · rw [hend job now, hend _ now2]
    norm_num

/-- An in-memory entry reporting a completed run with an output file. -/
def obsEntryC3 : MemEntry :=
  { status := "completed", progress := 100, message := "3D重建完成",
    input_folder := "uploads/j1", output_folder := "models/j1", temp_folder := "temp/j1",
    quality := "low", preset := "default", output_file := some "models/j1/j1.obj" }

/-- A job that ALREADY has the remote key prefix "jobs/j1" recorded. -/
def jobPrefixedC3 : JobRecord :=
  { JobRecord.mk0 1 1 "j1" none none with status := "running", s3_key_pfx := some "jobs/j1" }

/-- C3 counterexample: the claim says the repeat upload "is prevented by
checking whether a remote key prefix is already recorded on the job" — but
the synchronization block has no such check: with the prefix already
recorded, an observation of a completed status with an output file still
performs an upload (count 1). -/
theorem C3_counterexample :
    jobPrefixedC3.s3_key_pfx = some "jobs/j1" ∧
    (check_status_sync jobPrefixedC3 (MeshObs.st obsEntryC3 none) true true true 0).2 = 1 := by
  exact ⟨rfl, rfl⟩


end MvsDesigner
